import Mathlib

/-!
Shallow embedding of src/GenAITrans.py (the SmartScript OCR demo).

The Python module defines a class SmartScriptOCR with
  - a supported_languages dictionary mapping language names to lists of
    two-letter codes,
  - initialize_ocr, which looks the selected language up in that dictionary
    (raising KeyError on a miss) and constructs an easyocr.Reader over the
    single first code with gpu=False,
  - process_genai, which POSTs the OCR text to a configured endpoint and,
    on a non-200 status, falls back to an OpenAI chat completion; any
    exception is caught, shown via st.error, and the input text is returned,
and a create_ui function wiring two tabs: an analysis handler (decode the
image, grayscale it when it has three dimensions, run OCR, optionally
enhance, then store the text in session state) and a question-answering tab
gated on that session state.

External effects (HTTP responses, library exceptions, recognition output)
are modelled by explicit environment records; each handler returns the
sequence of observable events (API calls made, notices shown) so that the
claims about call order, call counts and user-visible errors are statements
about these traces.
-/

/-- The four values the code reads from st.secrets: an OpenAI key and model
name, and the second provider key and endpoint URL (src/GenAITrans.py lines
19, 20, 28, 47). -/
structure Secrets where
  openai_api_key : String
  xai_api_key : String
  xai_api_url : String
  openai_model : String
deriving DecidableEq, Repr

/-- A decoded numpy array: we keep its shape (list of dimension sizes) and a
flat pixel buffer; the grayscale branch at line 188 only inspects the length
of the shape. -/
structure NDArray where
  shape : List Nat
  data : List Nat
deriving DecidableEq, Repr

/-- The image actually handed to the recognizer at line 189: either the
grayscale conversion (cv2.cvtColor with COLOR_RGB2GRAY) of the decoded
array, or the decoded array unchanged. -/
inductive ProcImg where
  | gray (a : NDArray)
  | raw (a : NDArray)
deriving DecidableEq, Repr

/-- Line 188: processed_img is the grayscale conversion of img_array exactly
when len(img_array.shape) == 3, otherwise img_array itself. -/
def select_processed (a : NDArray) : ProcImg :=
  if a.shape.length = 3 then ProcImg.gray a else ProcImg.raw a

/-- The easyocr.Reader constructed at line 24: a language list and the gpu
flag. -/
structure Reader where
  lang_list : List String
  gpu : Bool
deriving DecidableEq, Repr

/-- Lines 13 to 17: the supported_languages dictionary. -/
def supported_languages : List (String × List String) :=
  [("Hindi", ["hi"]), ("English", ["en"]), ("Arabic", ["ar"])]

/-- Lines 22 to 24: lang_code = self.supported_languages[lang][0] (a dict
lookup that raises KeyError on a miss, then indexing that would raise
IndexError on an empty code list), then easyocr.Reader([lang_code],
gpu=False). The Except value records the exception raised before any
recognizer is constructed. -/
def initialize_ocr (lang : String) : Except String Reader :=
  match supported_languages.lookup lang with
  | none => Except.error "KeyError"
  | some codes =>
    match codes with
    | [] => Except.error "IndexError"
    | c :: _ => Except.ok { lang_list := [c], gpu := false }

/-- Observable events of one user action: the primary HTTP POST (line 40),
a chat-completion create call with its model argument (lines 46 and 229),
the OCR invocation on a processed image (line 189), an st.error notice
(lines 56, 219, 244) and an st.info notice (line 246). -/
inductive Event where
  | primaryPost (url : String)
  | chatCreate (model : String)
  | ocrProcess (img : ProcImg)
  | errorShown (msg : String)
  | infoShown (msg : String)
deriving DecidableEq, Repr

def isPrimaryPost : Event → Bool
  | Event.primaryPost _ => true
  | _ => false

def isChatCreate : Event → Bool
  | Event.chatCreate _ => true
  | _ => false

def isOcrProcess : Event → Bool
  | Event.ocrProcess _ => true
  | _ => false

def isErrorShown : Event → Bool
  | Event.errorShown _ => true
  | _ => false

instance {ε α : Type} [DecidableEq ε] [DecidableEq α] :
    DecidableEq (Except ε α) := fun a b =>
  match a, b with
  | Except.ok x, Except.ok y =>
      if h : x = y then isTrue (by rw [h])
      else isFalse (fun hh => h (by cases hh; rfl))
  | Except.ok _, Except.error _ => isFalse (fun hh => Except.noConfusion hh)
  | Except.error _, Except.ok _ => isFalse (fun hh => Except.noConfusion hh)
  | Except.error x, Except.error y =>
      if h : x = y then isTrue (by rw [h])
      else isFalse (fun hh => h (by cases hh; rfl))

/-- The primary endpoint response at line 40: a status code together with
the outcome of response.json() and the chained subscripts at line 43, which
can themselves raise. -/
structure PostResponse where
  status_code : Nat
  jsonContent : Except String String
deriving DecidableEq, Repr

/-- Environment for process_genai: the configuration store, the outcome of
requests.post (an exception or a response), and the outcome of the fallback
openai.chat.completions.create call including the extraction at line 53 (an
exception or the returned content). -/
structure GenAIEnv where
  secrets : Secrets
  post : Except String PostResponse
  openaiCreate : Except String String
deriving DecidableEq, Repr

/-- Lines 27 to 53, the body of the try block of process_genai: POST to the
configured URL; on status 200 return the extracted content; otherwise call
the fallback provider with the configured model name and return its content.
The trace records the calls in program order. -/
def process_genai_body (env : GenAIEnv) (_text : String) :
    Except String String × List Event :=
  let url := env.secrets.xai_api_url
  match env.post with
  | Except.error e => (Except.error e, [Event.primaryPost url])
  | Except.ok resp =>
    if resp.status_code = 200 then
      (resp.jsonContent, [Event.primaryPost url])
    else
      (env.openaiCreate,
        [Event.primaryPost url, Event.chatCreate env.secrets.openai_model])

/-- Lines 26 to 57: process_genai wraps the body in try/except; any
exception is shown via st.error with the prefix at line 56 and the input
text is returned unchanged. -/
def process_genai (env : GenAIEnv) (text : String) : String × List Event :=
  match process_genai_body env text with
  | (Except.ok s, tr) => (s, tr)
  | (Except.error e, tr) =>
      (text, tr ++ [Event.errorShown ("GenAI Error: " ++ e)])

/-- One EasyOCR detection: a recognized text segment together with the
certainty the library reports for it. -/
structure Detection where
  text : String
  score : Rat
deriving DecidableEq, Repr

/-- Modelled from the spec: process_traditional is invoked at
src/GenAITrans.py line 189 but is defined nowhere in the repository; per
spec sections 4.1 and 8 the OCR invocation returns best-effort transcribed
text plus a confidence percentage, the confidence being a heuristic
percentage derived from what the OCR library reports (glossary). We model
it as joining the recognized segments and averaging the per-segment library
scores, scaled to a percentage. -/
def process_traditional (dets : List Detection) : String × Rat :=
  ( String.intercalate " " (dets.map (fun d => d.text)),
    if dets.length = 0 then 0
    else 100 * (dets.map (fun d => d.score)).sum / (dets.length : Rat) )

/-- The per-session state: st.session_state with its single field
processed_text, absent until line 216 first assigns it. -/
structure SessionState where
  processed_text : Option String
deriving DecidableEq, Repr

/-- Environment for the Analyze Document handler (lines 183 to 219): an
exception the easyocr.Reader constructor may raise after a successful
dictionary lookup, the decoded image array, the outcome of reading text
from the processed image, and the environment for the enhancement call. -/
structure AnalyzeEnv where
  readerConstructorError : Option String
  img : NDArray
  ocrDetections : Except String (List Detection)
  genai : GenAIEnv
deriving DecidableEq, Repr

/-- Lines 184 to 216, the body of the try block of the analysis handler:
initialize the recognizer for the selected language, grayscale the decoded
array when it has three dimensions, run the OCR invocation, and enhance the
text when the mode is GenAI Enhanced. Returns the text to be stored (or the
exception) and the trace of calls and notices. -/
def analyze_body (env : AnalyzeEnv) (lang mode : String) :
    Except String String × List Event :=
  match initialize_ocr lang with
  | Except.error e => (Except.error e, [])
  | Except.ok _ =>
    match env.readerConstructorError with
    | some e => (Except.error e, [])
    | none =>
      let pimg := select_processed env.img
      match env.ocrDetections with
      | Except.error e => (Except.error e, [Event.ocrProcess pimg])
      | Except.ok dets =>
        let tc := process_traditional dets
        if mode = "GenAI Enhanced" then
          let r := process_genai env.genai tc.1
          (Except.ok r.1, Event.ocrProcess pimg :: r.2)
        else
          (Except.ok tc.1, [Event.ocrProcess pimg])

/-- Lines 183 to 219: the handler wraps the body in try/except. On success
line 216 stores the final text in session state; on an exception st.error
shows it with the prefix at line 219 and the session state is untouched. -/
def analyze_handler (env : AnalyzeEnv) (st : SessionState) (lang mode : String) :
    SessionState × List Event :=
  match analyze_body env lang mode with
  | (Except.ok t, tr) => ({ processed_text := some t }, tr)
  | (Except.error e, tr) => (st, tr ++ [Event.errorShown ("Error: " ++ e)])

/-- Environment for the question-answering tab: the configuration store and
the outcome of the chat-completion call at lines 229 to 236 including the
content extraction. -/
structure QAEnv where
  secrets : Secrets
  qaCreate : Except String String
deriving DecidableEq, Repr

/-- Lines 222 to 246, the second tab: with no processed_text in session
state st.info shows the guidance message at line 246 and nothing else runs;
with text present, a nonempty question plus the button triggers the
chat-completion call with the literal model gpt-4o-mini, and any exception
is shown via st.error with the prefix at line 244. -/
def qa_tab (env : QAEnv) (st : SessionState) (question : String)
    (buttonPressed : Bool) : List Event :=
  match st.processed_text with
  | none =>
      [Event.infoShown "Please process a document first in the OCR Processing tab."]
  | some _ =>
    if question ≠ "" ∧ buttonPressed = true then
      match env.qaCreate with
      | Except.ok _ => [Event.chatCreate "gpt-4o-mini"]
      | Except.error e =>
          [Event.chatCreate "gpt-4o-mini",
           Event.errorShown ("Error generating answer: " ++ e)]
    else []

/-! Concrete environments used by the witness theorems. -/

/-- A concrete configuration store. -/
def secretsW : Secrets :=
  { openai_api_key := "sk-demo"
    xai_api_key := "xai-demo"
    xai_api_url := "https://xai.example/v1/chat"
    openai_model := "configured-model" }

/-- An enhancement environment in which the primary POST raises. -/
def envPostRaises : GenAIEnv :=
  { secrets := secretsW
    post := Except.error "ConnectionError"
    openaiCreate := Except.ok "unused" }

/-- An enhancement environment in which the primary POST returns status 500
and the fallback succeeds. -/
def envFallbackOk : GenAIEnv :=
  { secrets := secretsW
    post := Except.ok { status_code := 500, jsonContent := Except.error "unused" }
    openaiCreate := Except.ok "enhanced text" }

/-- A concrete decoded two-dimensional image array. -/
def imgW : NDArray := { shape := [4, 5], data := List.replicate 20 0 }

/-- An analysis environment in which recognition raises. -/
def envAnalyzeFail : AnalyzeEnv :=
  { readerConstructorError := none
    img := imgW
    ocrDetections := Except.error "RecognitionError"
    genai := envPostRaises }

/-- An analysis environment in which everything succeeds. -/
def envAnalyzeOk : AnalyzeEnv :=
  { readerConstructorError := none
    img := imgW
    ocrDetections := Except.ok [{ text := "hello", score := 9 / 10 }]
    genai := envFallbackOk }

/-- A question-answering environment whose chat-completion call succeeds. -/
def envQAOk : QAEnv := { secrets := secretsW, qaCreate := Except.ok "the answer" }

/-- A question-answering environment whose chat-completion call raises. -/
def envQAFail : QAEnv := { secrets := secretsW, qaCreate := Except.error "RateLimitError" }

/-- A concrete recognition output with two detections. -/
def detsW : List Detection :=
  [{ text := "hello", score := 9 / 10 }, { text := "ok", score := 1 / 2 }]

/-! Helper lemmas shared by several claims. -/

theorem genai_error_notice (env : GenAIEnv) (text e : String) (tr : List Event)
    (h : process_genai_body env text = (Except.error e, tr)) :
    process_genai env text = (text, tr ++ [Event.errorShown ("GenAI Error: " ++ e)]) := by
  unfold process_genai
  rw [h]

theorem genai_trace_counts (env : GenAIEnv) (text : String) :
    (process_genai env text).2.countP isPrimaryPost ≤ 1
    ∧ (process_genai env text).2.countP isChatCreate ≤ 1
    ∧ (process_genai env text).2.countP isOcrProcess = 0 := by
  unfold process_genai process_genai_body
  rcases hp : env.post with e | resp
  · simp [hp, List.countP_append, List.countP_cons, List.countP_nil,
      isPrimaryPost, isChatCreate, isOcrProcess]
  · by_cases h200 : resp.status_code = 200
    · rcases hj : resp.jsonContent with e | s <;>
        simp [hp, h200, hj, List.countP_append, List.countP_cons, List.countP_nil,
          isPrimaryPost, isChatCreate, isOcrProcess]
    · rcases ho : env.openaiCreate with e | s <;>
        simp [hp, h200, ho, List.countP_append, List.countP_cons, List.countP_nil,
          isPrimaryPost, isChatCreate, isOcrProcess]

/-! The claims. -/

/-- Claim C2: for every input text, if any exception is raised during either
enhancement attempt (the primary HTTP POST, the extraction from its
response, or the fallback provider call), process_genai returns its input
text unchanged together with a visible GenAI Error notice appended to the
trace; since process_genai is a total function on its environment, no
exception reaches its caller. -/
theorem claim2_enhancement_error_returns_input (env : GenAIEnv) (text e : String)
    (tr : List Event)
    (h : process_genai_body env text = (Except.error e, tr)) :
    process_genai env text = (text, tr ++ [Event.errorShown ("GenAI Error: " ++ e)]) :=
  genai_error_notice env text e tr h

/-- Witness for claim C2 at a concrete environment where the POST raises. -/
theorem claim2_enhancement_error_returns_input_witness :
    process_genai envPostRaises "raw ocr text" =
      ("raw ocr text",
        [Event.primaryPost "https://xai.example/v1/chat",
         Event.errorShown "GenAI Error: ConnectionError"]) := by
  rw [claim2_enhancement_error_returns_input envPostRaises "raw ocr text"
    "ConnectionError" [Event.primaryPost "https://xai.example/v1/chat"] (by decide)]
  decide

/-- Claim C3: the number of fallback chat-completion calls made by
process_genai is exactly one when the primary POST returns a non-success
status, and zero when it returns success or raises; moreover the trace
always begins with the primary POST, so the fallback is never invoked
before it. -/
theorem claim3_fallback_exactly_once (env : GenAIEnv) (text : String) :
    ((process_genai env text).2.countP isChatCreate =
      match env.post with
      | Except.ok resp => if resp.status_code = 200 then 0 else 1
      | Except.error _ => 0)
    ∧ (process_genai env text).2.head? =
        some (Event.primaryPost env.secrets.xai_api_url) := by
  unfold process_genai process_genai_body
  rcases hp : env.post with e | resp
  · simp [hp, List.countP_append, List.countP_cons, List.countP_nil, isChatCreate]
  · by_cases h200 : resp.status_code = 200
    · rcases hj : resp.jsonContent with e | s <;>
        simp [hp, h200, hj, List.countP_append, List.countP_cons, List.countP_nil,
          isChatCreate]
    · rcases ho : env.openaiCreate with e | s <;>
        simp [hp, h200, ho, List.countP_append, List.countP_cons, List.countP_nil,
          isChatCreate]

/-- Claim C6: for each supported language selection, initialize_ocr
constructs the recognizer over exactly the single mapped two-letter code
and no other codes, with gpu disabled. -/
theorem claim6_language_codes_exact :
    initialize_ocr "Hindi" = Except.ok { lang_list := ["hi"], gpu := false }
    ∧ initialize_ocr "English" = Except.ok { lang_list := ["en"], gpu := false }
    ∧ initialize_ocr "Arabic" = Except.ok { lang_list := ["ar"], gpu := false } := by
  decide

/-- Claim C10: for every language argument outside the three supported
names, initialize_ocr raises KeyError at the dictionary lookup, before any
recognizer is constructed; for a supported name the lookup cannot fail and
a recognizer is returned. -/
theorem claim10_unknown_language_keyerror (lang : String) :
    (lang ∉ ["Hindi", "English", "Arabic"] →
      initialize_ocr lang = Except.error "KeyError")
    ∧ (lang ∈ ["Hindi", "English", "Arabic"] →
      ∃ r, initialize_ocr lang = Except.ok r) := by
  constructor
  · intro h
    have h1 : lang ≠ "Hindi" := fun e => h (by rw [e]; exact List.mem_cons_self _ _)
    have h2 : lang ≠ "English" := fun e => h (by rw [e]; simp)
    have h3 : lang ≠ "Arabic" := fun e => h (by rw [e]; simp)
    have e1 : (lang == "Hindi") = false := beq_eq_false_iff_ne.mpr h1
    have e2 : (lang == "English") = false := beq_eq_false_iff_ne.mpr h2
    have e3 : (lang == "Arabic") = false := beq_eq_false_iff_ne.mpr h3
    unfold initialize_ocr supported_languages
    simp [List.lookup, e1, e2, e3]
  · intro h
    simp only [List.mem_cons, List.mem_singleton, List.not_mem_nil, or_false] at h
    rcases h with rfl | rfl | rfl
    · exact ⟨{ lang_list := ["hi"], gpu := false }, by decide⟩
    · exact ⟨{ lang_list := ["en"], gpu := false }, by decide⟩
    · exact ⟨{ lang_list := ["ar"], gpu := false }, by decide⟩

/-- Witness for claim C10 at the concrete inputs French and Hindi. -/
theorem claim10_unknown_language_keyerror_witness :
    initialize_ocr "French" = Except.error "KeyError"
    ∧ initialize_ocr "Hindi" = Except.ok { lang_list := ["hi"], gpu := false } :=
  ⟨(claim10_unknown_language_keyerror "French").1 (by decide), by decide⟩

/-- Claim C4: with no processed_text in session state the question tab
shows the guidance notice and makes no chat-completion call; a
chat-completion call can only occur in a state where extracted text
exists. -/
theorem claim4_question_requires_text (env : QAEnv) (st : SessionState)
    (q : String) (b : Bool) :
    qa_tab env { processed_text := none } q b =
      [Event.infoShown "Please process a document first in the OCR Processing tab."]
    ∧ ((qa_tab env st q b).countP isChatCreate ≠ 0 → st.processed_text ≠ none) := by
  constructor
  · rfl
  · intro hc hnone
    rcases st with ⟨pt⟩
    have hpt : pt = none := hnone
    subst hpt
    exact hc (by simp [qa_tab, List.countP_cons, List.countP_nil, isChatCreate])

/-- Witness for claim C4: the empty state shows the guidance notice, and a
state with text admits a call. -/
theorem claim4_question_requires_text_witness :
    qa_tab envQAOk { processed_text := none } "why" true =
      [Event.infoShown "Please process a document first in the OCR Processing tab."]
    ∧ ({ processed_text := some "doc" } : SessionState).processed_text ≠ none :=
  ⟨(claim4_question_requires_text envQAOk { processed_text := some "doc" } "why" true).1,
   (claim4_question_requires_text envQAOk { processed_text := some "doc" } "why" true).2
     (by decide)⟩

/-- Claim C7: the image handed to the OCR invocation is the grayscale
conversion of the decoded array exactly when the decoded array has three
dimensions, and the decoded array unchanged otherwise; every OCR event in
an analysis run carries exactly that selection. -/
theorem claim7_grayscale_iff_three_dims (a : NDArray) (env : AnalyzeEnv)
    (st : SessionState) (lang mode : String) (pimg : ProcImg) :
    (a.shape.length = 3 → select_processed a = ProcImg.gray a)
    ∧ (a.shape.length ≠ 3 → select_processed a = ProcImg.raw a)
    ∧ (Event.ocrProcess pimg ∈ (analyze_handler env st lang mode).2 →
        pimg = select_processed env.img) := by
  refine ⟨fun h => by simp [select_processed, h],
          fun h => by simp [select_processed, h], ?_⟩
  intro hmem
  unfold analyze_handler analyze_body at hmem
  rcases hinit : initialize_ocr lang with e | r
  · simp [hinit] at hmem
  · rcases hrc : env.readerConstructorError with _ | e2
    · rcases hdet : env.ocrDetections with e3 | dets
      · simp [hinit, hrc, hdet] at hmem
        exact hmem
      · by_cases hmode : mode = "GenAI Enhanced"
        · simp [hinit, hrc, hdet, hmode] at hmem
          rcases hmem with h1 | h2
          · exact h1
          · have hno := (genai_trace_counts env.genai
              (process_traditional dets).1).2.2
            have hall := List.countP_eq_zero.mp hno
            exact absurd rfl (hall _ h2)
        · simp [hinit, hrc, hdet, hmode] at hmem
          exact hmem
    · simp [hinit, hrc] at hmem

/-- Witness for claim C7 at a three-dimensional shape, a two-dimensional
shape, and a concrete analysis run. -/
theorem claim7_grayscale_iff_three_dims_witness :
    select_processed { shape := [4, 5, 3], data := [] } =
      ProcImg.gray { shape := [4, 5, 3], data := [] }
    ∧ select_processed { shape := [4, 5], data := [] } =
      ProcImg.raw { shape := [4, 5], data := [] }
    ∧ ProcImg.raw imgW = select_processed envAnalyzeFail.img :=
  ⟨(claim7_grayscale_iff_three_dims { shape := [4, 5, 3], data := [] }
      envAnalyzeFail { processed_text := none } "Hindi" "Traditional ML"
      (ProcImg.raw imgW)).1 (by decide),
   (claim7_grayscale_iff_three_dims { shape := [4, 5], data := [] }
      envAnalyzeFail { processed_text := none } "Hindi" "Traditional ML"
      (ProcImg.raw imgW)).2.1 (by decide),
   (claim7_grayscale_iff_three_dims { shape := [4, 5], data := [] }
      envAnalyzeFail { processed_text := none } "Hindi" "Traditional ML"
      (ProcImg.raw imgW)).2.2 (by decide)⟩

/-- Claim C9: every chat-completion call made by the question tab uses the
literal model name gpt-4o-mini whatever the configuration store holds,
while every chat-completion call made by the enhancement fallback uses the
configured model name. -/
theorem claim9_qa_model_literal (envQ : QAEnv) (stq : SessionState) (q : String)
    (b : Bool) (envG : GenAIEnv) (text : String) :
    (∀ m, Event.chatCreate m ∈ qa_tab envQ stq q b → m = "gpt-4o-mini")
    ∧ (∀ m, Event.chatCreate m ∈ (process_genai envG text).2 →
        m = envG.secrets.openai_model) := by
  constructor
  · intro m hm
    rcases stq with ⟨_ | t⟩
    · simp [qa_tab] at hm
    · by_cases hq : q ≠ "" ∧ b = true
      · rcases hc : envQ.qaCreate with e | a <;>
          simp [qa_tab, hq, hc] at hm <;> exact hm
      · simp [qa_tab, hq] at hm
  · intro m hm
    unfold process_genai process_genai_body at hm
    rcases hp : envG.post with e | resp
    · simp [hp] at hm
    · by_cases h200 : resp.status_code = 200
      · rcases hj : resp.jsonContent with e | s <;> simp [hp, h200, hj] at hm
      · rcases ho : envG.openaiCreate with e | s <;>
          simp [hp, h200, ho] at hm <;> exact hm

/-- Witness for claim C9: a concrete question-tab call and a concrete
fallback call. -/
theorem claim9_qa_model_literal_witness :
    ("gpt-4o-mini" : String) = "gpt-4o-mini"
    ∧ ("configured-model" : String) = envFallbackOk.secrets.openai_model :=
  ⟨(claim9_qa_model_literal envQAOk { processed_text := some "doc" } "why" true
      envFallbackOk "t").1 "gpt-4o-mini" (by decide),
   (claim9_qa_model_literal envQAOk { processed_text := some "doc" } "why" true
      envFallbackOk "t").2 "configured-model" (by decide)⟩

/-- Claim C1 (the OCR invocation is modelled from the spec, its definition
being absent from the repository): whenever every per-segment score the
library reports lies in the unit interval, process_traditional returns a
text string paired with a confidence lying in the range 0 to 100. -/
theorem claim1_ocr_confidence_in_range (dets : List Detection)
    (h : ∀ d ∈ dets, 0 ≤ d.score ∧ d.score ≤ 1) :
    0 ≤ (process_traditional dets).2 ∧ (process_traditional dets).2 ≤ 100 := by
  unfold process_traditional
  dsimp only
  by_cases hn : dets.length = 0
  · rw [if_pos hn]
    exact ⟨le_refl 0, by norm_num⟩
  · rw [if_neg hn]
    have hlen : 0 < (dets.length : Rat) := by
      exact_mod_cast Nat.pos_of_ne_zero hn
    have hS0 : 0 ≤ (dets.map (fun d => d.score)).sum := by
      apply List.sum_nonneg
      intro x hx
      rcases List.mem_map.mp hx with ⟨d, hd, rfl⟩
      exact (h d hd).1
    have hS1' := List.sum_le_card_nsmul (dets.map (fun d => d.score)) 1
      (fun x hx => by
        rcases List.mem_map.mp hx with ⟨d, hd, rfl⟩
        exact (h d hd).2)
    have hS1 : (dets.map (fun d => d.score)).sum ≤ (dets.length : Rat) := by
      simpa [List.length_map, nsmul_eq_mul, mul_one] using hS1'
    constructor
    · exact div_nonneg (mul_nonneg (by norm_num) hS0) hlen.le
    · rw [div_le_iff₀ hlen]
      nlinarith [hS1]

/-- Witness for claim C1 at a concrete two-detection recognition output. -/
theorem claim1_ocr_confidence_in_range_witness :
    0 ≤ (process_traditional detsW).2 ∧ (process_traditional detsW).2 ≤ 100 :=
  claim1_ocr_confidence_in_range detsW (by
    intro d hd
    simp only [detsW, List.mem_cons, List.not_mem_nil, or_false] at hd
    rcases hd with rfl | rfl <;> constructor <;> norm_num)

/-- Claim C8: the analysis handler leaves processed_text untouched whenever
any step of its body raises, and stores the final text exactly when the
whole extract-and-enhance pipeline succeeds. -/
theorem claim8_processed_text_on_success_only (env : AnalyzeEnv)
    (st : SessionState) (lang mode : String) :
    (∀ e tr, analyze_body env lang mode = (Except.error e, tr) →
      (analyze_handler env st lang mode).1 = st)
    ∧ (∀ t tr, analyze_body env lang mode = (Except.ok t, tr) →
      (analyze_handler env st lang mode).1 = { processed_text := some t }) := by
  constructor
  · intro e tr h
    unfold analyze_handler
    rw [h]
  · intro t tr h
    unfold analyze_handler
    rw [h]

/-- Witness for claim C8: a failing run keeps the previous state and a
successful run stores the extracted text. -/
theorem claim8_processed_text_on_success_only_witness :
    (analyze_handler envAnalyzeFail { processed_text := some "old" } "Hindi"
      "Traditional ML").1 = { processed_text := some "old" }
    ∧ (analyze_handler envAnalyzeOk { processed_text := some "old" } "Hindi"
      "Traditional ML").1 = { processed_text := some "hello" } :=
  ⟨(claim8_processed_text_on_success_only envAnalyzeFail
      { processed_text := some "old" } "Hindi" "Traditional ML").1
      "RecognitionError" [Event.ocrProcess (ProcImg.raw imgW)] (by decide),
   (claim8_processed_text_on_success_only envAnalyzeOk
      { processed_text := some "old" } "Hindi" "Traditional ML").2
      "hello" [Event.ocrProcess (ProcImg.raw imgW)] (by decide)⟩

theorem analyze_trace_counts (env : AnalyzeEnv) (st : SessionState)
    (lang mode : String) :
    (analyze_handler env st lang mode).2.countP isPrimaryPost ≤ 1
    ∧ (analyze_handler env st lang mode).2.countP isChatCreate ≤ 1
    ∧ (analyze_handler env st lang mode).2.countP isOcrProcess ≤ 1 := by
  unfold analyze_handler analyze_body
  rcases hinit : initialize_ocr lang with e | r
  · simp [hinit, List.countP_append, List.countP_cons, List.countP_nil,
      isPrimaryPost, isChatCreate, isOcrProcess]
  · rcases hrc : env.readerConstructorError with _ | e2
    · rcases hdet : env.ocrDetections with e3 | dets
      · simp [hinit, hrc, hdet, List.countP_append, List.countP_cons,
          List.countP_nil, isPrimaryPost, isChatCreate, isOcrProcess]
      · by_cases hmode : mode = "GenAI Enhanced"
        · obtain ⟨g1, g2, g3⟩ :=
            genai_trace_counts env.genai (process_traditional dets).1
          refine ⟨?_, ?_, ?_⟩
          · simp [hinit, hrc, hdet, hmode, List.countP_cons, isPrimaryPost]
            omega
          · simp [hinit, hrc, hdet, hmode, List.countP_cons, isChatCreate]
            omega
          · simp [hinit, hrc, hdet, hmode, List.countP_cons, isOcrProcess, g3]
        · simp [hinit, hrc, hdet, hmode, List.countP_append, List.countP_cons,
            List.countP_nil, isPrimaryPost, isChatCreate, isOcrProcess]
    · simp [hinit, hrc, List.countP_append, List.countP_cons, List.countP_nil,
        isPrimaryPost, isChatCreate, isOcrProcess]

/-- Claim C5: every failure of the three user-triggered operations (the
analysis handler, the enhancement call, the question answering call) is
caught and surfaces as a user-visible error notice in the trace, the
handlers being total functions so that no exception escapes them, and no
external call is made more than once per run. -/
theorem claim5_failures_notified
    (envA : AnalyzeEnv) (st : SessionState) (lang mode : String)
    (envG : GenAIEnv) (textG : String)
    (envQ : QAEnv) (stq : SessionState) (q : String) (b : Bool) :
    (∀ e tr, analyze_body envA lang mode = (Except.error e, tr) →
      (analyze_handler envA st lang mode).2.any isErrorShown = true)
    ∧ (analyze_handler envA st lang mode).2.countP isPrimaryPost ≤ 1
    ∧ (analyze_handler envA st lang mode).2.countP isChatCreate ≤ 1
    ∧ (analyze_handler envA st lang mode).2.countP isOcrProcess ≤ 1
    ∧ (∀ e tr, process_genai_body envG textG = (Except.error e, tr) →
      (process_genai envG textG).2.any isErrorShown = true)
    ∧ (process_genai envG textG).2.countP isPrimaryPost ≤ 1
    ∧ (process_genai envG textG).2.countP isChatCreate ≤ 1
    ∧ (∀ e, envQ.qaCreate = Except.error e → stq.processed_text ≠ none →
        q ≠ "" → b = true → (qa_tab envQ stq q b).any isErrorShown = true)
    ∧ (qa_tab envQ stq q b).countP isChatCreate ≤ 1 := by
  obtain ⟨a1, a2, a3⟩ := analyze_trace_counts envA st lang mode
  obtain ⟨p1, p2, _⟩ := genai_trace_counts envG textG
  refine ⟨?_, a1, a2, a3, ?_, p1, p2, ?_, ?_⟩
  · intro e tr h
    unfold analyze_handler
    rw [h]
    simp [List.any_append, isErrorShown]
  · intro e tr h
    rw [genai_error_notice envG textG e tr h]
    simp [List.any_append, isErrorShown]
  · intro e he hst hq hb
    rcases stq with ⟨_ | t⟩
    · exact absurd rfl hst
    · subst hb
      simp [qa_tab, hq, he, isErrorShown]
  · rcases stq with ⟨_ | t⟩
    · simp [qa_tab, List.countP_cons, List.countP_nil, isChatCreate]
    · by_cases hq : q ≠ "" ∧ b = true
      · rcases hc : envQ.qaCreate with e | a <;>
          simp [qa_tab, hq, hc, List.countP_cons, List.countP_nil, isChatCreate]
      · simp [qa_tab, hq]

/-- Witness for claim C5: concrete failing runs of the three operations
each surface a visible error notice. -/
theorem claim5_failures_notified_witness :
    (analyze_handler envAnalyzeFail { processed_text := none } "Hindi"
      "Traditional ML").2.any isErrorShown = true
    ∧ (process_genai envPostRaises "t").2.any isErrorShown = true
    ∧ (qa_tab envQAFail { processed_text := some "doc" } "why" true).any
        isErrorShown = true := by
  obtain ⟨hA, _, _, _, hG, _, _, hQ, _⟩ :=
    claim5_failures_notified envAnalyzeFail { processed_text := none } "Hindi"
      "Traditional ML" envPostRaises "t" envQAFail
      { processed_text := some "doc" } "why" true
  exact ⟨hA "RecognitionError" [Event.ocrProcess (ProcImg.raw imgW)] (by decide),
         hG "ConnectionError" [Event.primaryPost "https://xai.example/v1/chat"]
           (by decide),
         hQ "RateLimitError" (by decide) (by decide) (by decide) rfl⟩
